import Mathlib

/-!
Shallow embedding of vue-version-watcher (src/src/index.ts).

Module-level mutable state of the TypeScript module (`sysVersion`,
`checkTimer`, `isInitialized`) together with the window-level effects the
watcher produces (history hooking, listener registration, the asset-error
tally closure) is modelled as an explicit `SystemState` record threaded
through pure functions.  Asynchronous probes (`fetch` HEAD requests) are
modelled by a `FetchResult` value handed to each evaluation.  Logging is
modelled as a list of `LogMsg` tags; the notification effect (calling
`onUpdateDetected` or opening the dialog) is counted as a `Nat`.
-/

namespace VersionWatcher

/-- JavaScript truthiness of a nullable string: `null`/`undefined` and the
empty string are falsy. -/
def jsFalsyStr (s : String) : Bool := s.data.isEmpty

/-- JavaScript truthiness test for `string | null` values. -/
def jsFalsy : Option String → Bool
  | none => true
  | some s => jsFalsyStr s

/-- Boolean string-prefix test on character lists (JS `String.prototype.startsWith`). -/
def listIsPref : List Char → List Char → Bool
  | [], _ => true
  | _ :: _, [] => false
  | a :: as, b :: bs => a = b && listIsPref as bs

/-- `jsStartsWith pre s` models `s.startsWith(pre)` from the error listener. -/
def jsStartsWith (pre s : String) : Bool := listIsPref pre.data s.data

/-- Characters of a URL up to (excluding) the next `/`. -/
def hostPart : List Char → List Char
  | [] => []
  | c :: cs => if c = '/' then [] else c :: hostPart cs

/-- Characters of `scheme://host[:port]` extracted from a URL's characters. -/
def originChars : List Char → List Char
  | ':' :: '/' :: '/' :: rest => ':' :: '/' :: '/' :: hostPart rest
  | [] => []
  | c :: rest => c :: originChars rest

/-- The origin (`scheme://host[:port]`) of a URL string, used to state
same-origin facts (glossary: scheme+host+port identical). -/
def urlOrigin (url : String) : String := String.mk (originChars url.data)

/-- Log messages the watcher can emit, identified by tag. -/
inductive LogMsg where
  | disabled        -- "已关闭（当前环境未启用检测）"
  | duplicateWarn   -- "已存在，跳过重复注册。"
  | startup         -- "启用版本更新检测(v1.2)..."
  | ignoredInit     -- "忽略当前路径，跳过初始化。"
  | ignoredNav      -- "导航到忽略的路径，跳过版本检查。"
  | assetFailWarn   -- "静态资源加载失败，检测中:"
  | destroyed       -- "Destroyed"
  | etagFail        -- "Failed to get ETag:"
  | changeDetected  -- "检测到版本变化：..."
deriving DecidableEq

/-- Result of the HEAD `fetch` issued by `getETag`: either a transport error
(the promise rejects) or a response with its `ok` flag and the two headers
read by the prober (`null` when absent). -/
inductive FetchResult where
  | networkError : FetchResult
  | response (ok : Bool) (etag : Option String) (lastModified : Option String) : FetchResult

/-- The watcher's process-wide state: the module variables of index.ts plus
the window/history effects it owns. -/
structure SystemState where
  /-- `sysVersion`: the stored baseline fingerprint (`null` initially). -/
  sysVersion : Option String := none
  /-- Whether `checkTimer` holds a live interval handle. -/
  timerArmed : Bool := false
  /-- `isInitialized` module flag. -/
  isInitialized : Bool := false
  /-- `window.__ORIGINAL_PUSH_STATE__` has been captured. -/
  origPushSaved : Bool := false
  /-- `window.__ORIGINAL_REPLACE_STATE__` has been captured. -/
  origReplaceSaved : Bool := false
  /-- `history.pushState` currently points at the watcher's wrapper. -/
  pushHooked : Bool := false
  /-- `history.replaceState` currently points at the watcher's wrapper. -/
  replaceHooked : Bool := false
  /-- Number of `popstate` listeners added by the watcher. -/
  popstateListeners : Nat := 0
  /-- Number of capturing `error` listeners added by the watcher. -/
  errorListeners : Nat := 0
  /-- `errorCount`: the asset-error tally closure variable. -/
  errorCount : Nat := 0
deriving DecidableEq

/-- The pristine module state at load time. -/
def initState : SystemState := {}

/-- Recognized `VersionWatcherOptions` (the `ignorePaths` RegExp is modelled
as a predicate on pathnames; the presence of `onUpdateDetected` as a flag). -/
structure VersionWatcherOptions where
  enabled : Bool := true
  checkInterval : Nat := 0
  checkPath : String := "/"
  silent : Bool := false
  hasUpdateCallback : Bool := false
  ignorePaths : Option (String → Bool) := none

/-- `ignorePaths && ignorePaths.test(pathname)`. -/
def ignoreMatch : Option (String → Bool) → String → Bool
  | none, _ => false
  | some pat, pathname => pat pathname

/-- `getETag(url, silent)`: fingerprint string and emitted logs.  A rejected
fetch or a non-ok response is caught, warned about unless silent, and
yields the empty string; otherwise `etag || last-modified || ""`. -/
def getETag (r : FetchResult) (silent : Bool) : String × List LogMsg :=
  match r with
  | .networkError => ("", if silent then [] else [.etagFail])
  | .response ok etag lastModified =>
    if ok then
      (if jsFalsy etag = false then etag.getD ""
       else if jsFalsy lastModified = false then lastModified.getD ""
       else "", [])
    else ("", if silent then [] else [.etagFail])

/-- The body of `versionUpdateHandler` once the probe has produced the
fingerprint `nv`: returns the new state, the number of notifications fired
(0 or 1) and the logs. -/
def versionUpdateCore (nv : String) (silent : Bool) (s : SystemState) :
    SystemState × Nat × List LogMsg :=
  if jsFalsy s.sysVersion then
    ({ s with sysVersion := some nv }, 0, [])
  else if s.sysVersion ≠ some nv then
    (s, 1, if silent then [] else [.changeDetected])
  else
    (s, 0, [])

/-- `versionUpdateHandler(checkPath, silent, onUpdateDetected)` given the
outcome `probe` of its HEAD request. -/
def versionUpdateHandler (probe : FetchResult) (silent : Bool) (s : SystemState) :
    SystemState × Nat × List LogMsg :=
  let nv := (getETag probe silent).1
  let r := versionUpdateCore nv silent s
  (r.1, r.2.1, (getETag probe silent).2 ++ r.2.2)

/-- The navigation callback installed by `hookHistoryChange` and on
`popstate`: skips the evaluation when the current pathname matches
`ignorePaths`, otherwise runs `versionUpdateHandler`. -/
def navigationCallback (ignorePaths : Option (String → Bool)) (pathname : String)
    (probe : FetchResult) (silent : Bool) (s : SystemState) :
    SystemState × Nat × List LogMsg :=
  if ignoreMatch ignorePaths pathname then
    (s, 0, if silent then [] else [.ignoredNav])
  else
    versionUpdateHandler probe silent s

/-- The `error`-event target as seen by the listener in
`setupErrorMonitoring` (`null` target modelled by `Option`). -/
structure ErrorEventTarget where
  tagName : String
  src : Option String := none
  href : Option String := none

/-- `target?.src || target?.href` followed by the `if (!url)` guard: the
first truthy of the two, or `none`. -/
def pickAssetUrl (t : ErrorEventTarget) : Option String :=
  if jsFalsy t.src = false then t.src
  else if jsFalsy t.href = false then t.href
  else none

/-- The capturing `error` listener: same-page-prefix SCRIPT/LINK failures
increment the tally (and would schedule the debounced `checkError`). -/
def handleAssetError (origin : String) (target : Option ErrorEventTarget)
    (silent : Bool) (s : SystemState) : SystemState × List LogMsg :=
  match target with
  | none => (s, [])
  | some t =>
    match pickAssetUrl t with
    | none => (s, [])
    | some url =>
      if jsStartsWith origin url = false then (s, [])
      else if t.tagName = "SCRIPT" ∨ t.tagName = "LINK" then
        ({ s with errorCount := s.errorCount + 1 },
         if silent then [] else [.assetFailWarn])
      else (s, [])

/-- The debounced `checkError` body: once the quiescence window elapses, if
the tally exceeds 1 it re-probes and applies the guarded divergence rule
(`sysVersion && newVersion && sysVersion !== newVersion`); the tally is
reset afterwards in every case.  Returns (state, probes, notifications,
logs). -/
def checkError (probe : FetchResult) (silent : Bool) (s : SystemState) :
    SystemState × Nat × Nat × List LogMsg :=
  if s.errorCount > 1 then
    let nv := (getETag probe silent).1
    if jsFalsy s.sysVersion = false ∧ jsFalsyStr nv = false ∧ s.sysVersion ≠ some nv then
      ({ s with errorCount := 0 }, 1, 1, (getETag probe silent).2)
    else
      ({ s with errorCount := 0 }, 1, 0, (getETag probe silent).2)
  else
    ({ s with errorCount := 0 }, 0, 0, [])

/-- What a call to `setupVersionWatcher` produced: the state it left behind,
how many probes it issued, how many notifications it fired, its logs. -/
structure SetupResult where
  state : SystemState
  probes : Nat
  notifications : Nat
  logs : List LogMsg
deriving DecidableEq

/-- `setupVersionWatcher(options)` at current pathname `pathname`, with
`probe` the outcome of the initial HEAD request (issued only if control
reaches the initial `versionUpdateHandler` call). -/
def setupVersionWatcher (opts : VersionWatcherOptions) (pathname : String)
    (probe : FetchResult) (s : SystemState) : SetupResult :=
  if opts.enabled = false then
    ⟨s, 0, 0, if opts.silent then [] else [.disabled]⟩
  else if s.isInitialized then
    ⟨s, 0, 0, if opts.silent then [] else [.duplicateWarn]⟩
  else
    let s1 := { s with isInitialized := true }
    let logs0 : List LogMsg := if opts.silent then [] else [.startup]
    if ignoreMatch opts.ignorePaths pathname then
      ⟨s1, 0, 0, logs0 ++ if opts.silent then [] else [.ignoredInit]⟩
    else
      let s2 := if opts.checkInterval > 0 then { s1 with timerArmed := true } else s1
      let s3 := { s2 with origPushSaved := true, origReplaceSaved := true,
                          pushHooked := true, replaceHooked := true }
      let s4 := { s3 with popstateListeners := s3.popstateListeners + 1 }
      let s5 := { s4 with errorListeners := s4.errorListeners + 1 }
      let r := versionUpdateHandler probe opts.silent s5
      ⟨r.1, 1, r.2.1, logs0 ++ r.2.2⟩

/-- `destroyVersionWatcher()`: clear the interval if live, drop the
initialized flag, restore each history entry point whose original was
captured; log "Destroyed" unconditionally. -/
def destroyVersionWatcher (s : SystemState) : SystemState × List LogMsg :=
  let s1 := if s.timerArmed then { s with timerArmed := false } else s
  let s2 := { s1 with isInitialized := false }
  let s3 := if s2.origPushSaved then { s2 with pushHooked := false } else s2
  let s4 := if s3.origReplaceSaved then { s3 with replaceHooked := false } else s3
  (s4, [.destroyed])

/-- Firing pattern of the shared `debounce(fn, delay)` closure over an
increasing list of invocation times: a pending timeout from time `t` is
cleared when another call arrives before `t + delay`, so `fn` runs once per
quiescence gap and once after the final call. -/
def debounceFireCount (delay : Nat) : List Nat → Nat
  | [] => 0
  | [_] => 1
  | t1 :: t2 :: ts => (if t1 + delay ≤ t2 then 1 else 0) + debounceFireCount delay (t2 :: ts)

/-- `showUpdateDialog` constructs a fresh `debounce(..., 500)` closure on
every invocation and calls it exactly once, so each invocation time
contributes an independent single-element debounce run. -/
def showUpdateDialogCount (times : List Nat) : Nat :=
  (times.map (fun t => debounceFireCount 500 [t])).sum

/-- A state as left by a full (non-bypassed) setup that adopted baseline
"v1": timer live, history hooked, one popstate and one error listener. -/
def armedState : SystemState :=
  { sysVersion := some "v1", timerArmed := true, isInitialized := true,
    origPushSaved := true, origReplaceSaved := true,
    pushHooked := true, replaceHooked := true,
    popstateListeners := 1, errorListeners := 1, errorCount := 0 }

/-- A minimal state holding only the baseline fingerprint "v1". -/
def baselineV1State : SystemState := { initState with sysVersion := some "v1" }

/-- Default options as in `setupVersionWatcher({})`. -/
def defaultOpts : VersionWatcherOptions := {}

/-- Options whose ignore pattern matches every pathname. -/
def ignoreAllOpts : VersionWatcherOptions := { ignorePaths := some (fun _ => true) }

/-! ## Helper lemmas -/

/-- The state left by `versionUpdateCore`: only `sysVersion` can change, and
it changes exactly when the stored baseline was falsy. -/
theorem versionUpdateCore_state (nv : String) (silent : Bool) (s : SystemState) :
    (versionUpdateCore nv silent s).1 =
      { s with sysVersion := if jsFalsy s.sysVersion then some nv else s.sysVersion } := by
  unfold versionUpdateCore
  by_cases h : jsFalsy s.sysVersion
  · simp [h]
  · simp [h]
    split <;> rfl

/-- Notification count of one periodic/navigation evaluation, in closed
form: 1 iff the stored baseline is truthy and differs from the probe. -/
theorem versionUpdateCore_notifs (nv : String) (silent : Bool) (s : SystemState) :
    (versionUpdateCore nv silent s).2.1 =
      if jsFalsy s.sysVersion = false ∧ s.sysVersion ≠ some nv then 1 else 0 := by
  unfold versionUpdateCore
  by_cases h : jsFalsy s.sysVersion
  · simp [h]
  · simp [h]
    by_cases h2 : s.sysVersion = some nv <;> simp [h2]

/-- `destroyVersionWatcher` in closed form. -/
theorem destroy_state_eq (s : SystemState) :
    (destroyVersionWatcher s).1 =
      { s with timerArmed := false, isInitialized := false,
               pushHooked := if s.origPushSaved then false else s.pushHooked,
               replaceHooked := if s.origReplaceSaved then false else s.replaceHooked } := by
  unfold destroyVersionWatcher
  by_cases ht : s.timerArmed <;> by_cases hp : s.origPushSaved <;>
    by_cases hr : s.origReplaceSaved <;> simp [ht, hp, hr]

/-- An enabled setup call always leaves the initialized flag set. -/
theorem setup_sets_initialized (opts : VersionWatcherOptions) (pathname : String)
    (probe : FetchResult) (s : SystemState) (h : opts.enabled = true) :
    (setupVersionWatcher opts pathname probe s).state.isInitialized = true := by
  unfold setupVersionWatcher
  by_cases hI : s.isInitialized
  · simp [h, hI]
  · by_cases hm : ignoreMatch opts.ignorePaths pathname
    · simp [h, hI, hm]
    · simp only [h, hI, hm]
      simp [versionUpdateHandler, versionUpdateCore_state]
      split <;> rfl

/-- An enabled, non-silent setup call on an already-initialized state is a
warned no-op. -/
theorem setup_noop_when_initialized (opts : VersionWatcherOptions) (pathname : String)
    (probe : FetchResult) (s : SystemState) (h1 : opts.enabled = true)
    (h2 : opts.silent = false) (h3 : s.isInitialized = true) :
    setupVersionWatcher opts pathname probe s = ⟨s, 0, 0, [.duplicateWarn]⟩ := by
  unfold setupVersionWatcher
  simp [h1, h2, h3]

/-! ## Claim theorems -/

/-- C1 counterexample: with baseline "v1" stored, a probe that comes back
EMPTY fires a notification on the periodic/navigation evaluation path, so
"a notification fires only if the newly probed fingerprint is non-empty"
is false for that path. -/
theorem notify_on_empty_cex :
    (versionUpdateCore "" false baselineV1State).2.1 = 1 ∧ jsFalsyStr "" = true := by
  decide

/-- C1 (amended): on the periodic/navigation path a notification fires iff
the stored baseline is truthy and the probed fingerprint differs from it —
with no non-emptiness requirement on the probe; on the asset-error path a
notification fires iff additionally the tally exceeds 1 and the probed
fingerprint is non-empty.  Each qualifying call fires exactly one
notification. -/
theorem notification_rule (p : String) (silent : Bool) (s : SystemState)
    (probe : FetchResult) :
    (versionUpdateCore p silent s).2.1 =
      (if jsFalsy s.sysVersion = false ∧ s.sysVersion ≠ some p then 1 else 0) ∧
    (checkError probe silent s).2.2.1 =
      (if s.errorCount > 1 ∧ jsFalsy s.sysVersion = false ∧
          jsFalsyStr (getETag probe silent).1 = false ∧
          s.sysVersion ≠ some (getETag probe silent).1 then 1 else 0) := by
  constructor
  · exact versionUpdateCore_notifs p silent s
  · unfold checkError
    by_cases h : s.errorCount > 1
    · by_cases h2 : jsFalsy s.sysVersion = false ∧
          jsFalsyStr (getETag probe silent).1 = false ∧
          s.sysVersion ≠ some (getETag probe silent).1
      · simp [h, h2]
      · simp [h, h2]
    · simp [h]

/-- C2 counterexample: teardown from a fully armed state leaves the stored
baseline fingerprint at "v1" instead of resetting it to its initial
value, so "resets the entire Watcher State — including the stored
currentFingerprint" is false. -/
theorem destroy_retains_fingerprint_cex :
    (destroyVersionWatcher armedState).1.sysVersion = some "v1" ∧
    initState.sysVersion = none := by
  decide

/-- C2 (amended): teardown cancels the timer, clears the initialized flag
(so a subsequent setup re-arms iff enabled), restores each captured
history entry point, and always logs completion — but it RETAINS the
stored `sysVersion` baseline unchanged. -/
theorem destroy_spec (opts : VersionWatcherOptions) (pathname : String)
    (probe : FetchResult) (s : SystemState) :
    (destroyVersionWatcher s).1.timerArmed = false ∧
    (destroyVersionWatcher s).1.isInitialized = false ∧
    ((destroyVersionWatcher s).1.pushHooked =
      if s.origPushSaved then false else s.pushHooked) ∧
    ((destroyVersionWatcher s).1.replaceHooked =
      if s.origReplaceSaved then false else s.replaceHooked) ∧
    (destroyVersionWatcher s).1.sysVersion = s.sysVersion ∧
    (destroyVersionWatcher s).2 = [LogMsg.destroyed] ∧
    (setupVersionWatcher opts pathname probe
      (destroyVersionWatcher s).1).state.isInitialized = opts.enabled := by
  refine ⟨?_, ?_, ?_, ?_, ?_, rfl, ?_⟩
  · simp [destroy_state_eq]
  · simp [destroy_state_eq]
  · rw [destroy_state_eq]
  · rw [destroy_state_eq]
  · simp [destroy_state_eq]
  · by_cases he : opts.enabled
    · rw [he]
      exact setup_sets_initialized opts pathname probe _ he
    · have he2 : opts.enabled = false := by simpa using he
      unfold setupVersionWatcher
      simp [he2, destroy_state_eq]

/-- C3 counterexample: if the first probe after setup returns the EMPTY
fingerprint, it is adopted as baseline, and a later differing probe
("v1" ≠ "") fires no notification (the evaluation silently re-primes
instead), so "a differing probe fires a notification" is false as
stated. -/
theorem first_probe_empty_cex :
    (versionUpdateCore "v1" false (versionUpdateCore "" false initState).1).2.1 = 0 ∧
    "v1" ≠ "" := by
  decide

/-- C3 (amended): the first evaluate adopts the probed fingerprint as
baseline and never notifies; when the adopted baseline is NON-EMPTY, a
probe equal to it fires nothing and a differing probe fires a
notification (an empty adopted baseline is silently re-primed instead);
probes "v1","v1","v2" across three evaluations yield notifications
[no,no,yes]. -/
theorem first_evaluate_free (p b q : String) (silent : Bool) (s : SystemState)
    (h0 : jsFalsy s.sysVersion = true) (hb : jsFalsyStr b = false) (hq : q ≠ b) :
    ((versionUpdateCore p silent s).1.sysVersion = some p ∧
     (versionUpdateCore p silent s).2.1 = 0) ∧
    (versionUpdateCore b silent (versionUpdateCore b silent s).1).2.1 = 0 ∧
    (versionUpdateCore q silent (versionUpdateCore b silent s).1).2.1 = 1 ∧
    ((versionUpdateCore "v1" silent initState).2.1 = 0 ∧
     (versionUpdateCore "v1" silent (versionUpdateCore "v1" silent initState).1).2.1 = 0 ∧
     (versionUpdateCore "v2" silent
       (versionUpdateCore "v1" silent (versionUpdateCore "v1" silent initState).1).1).2.1 = 1) := by
  have hstate : (versionUpdateCore b silent s).1 = { s with sysVersion := some b } := by
    rw [versionUpdateCore_state, h0]
    simp
  have hbq : b ≠ q := fun hc => hq hc.symm
  refine ⟨⟨?_, ?_⟩, ?_, ?_, ?_⟩
  · rw [versionUpdateCore_state, h0]
    simp
  · rw [versionUpdateCore_notifs]
    simp [h0]
  · rw [hstate, versionUpdateCore_notifs]
    simp
  · rw [hstate, versionUpdateCore_notifs]
    simp [jsFalsy, hb, hbq]
  · cases silent <;> decide

/-- C3 witness: probes "a" (adopted), then baseline "v1" with probes "v1"
and "v2", from the pristine state. -/
theorem first_evaluate_free_witness :
    jsFalsy initState.sysVersion = true ∧ jsFalsyStr "v1" = false ∧ "v2" ≠ "v1" ∧
    (((versionUpdateCore "a" false initState).1.sysVersion = some "a" ∧
      (versionUpdateCore "a" false initState).2.1 = 0) ∧
     (versionUpdateCore "v1" false (versionUpdateCore "v1" false initState).1).2.1 = 0 ∧
     (versionUpdateCore "v2" false (versionUpdateCore "v1" false initState).1).2.1 = 1 ∧
     ((versionUpdateCore "v1" false initState).2.1 = 0 ∧
      (versionUpdateCore "v1" false (versionUpdateCore "v1" false initState).1).2.1 = 0 ∧
      (versionUpdateCore "v2" false
        (versionUpdateCore "v1" false (versionUpdateCore "v1" false initState).1).1).2.1 = 1)) :=
  ⟨by decide, by decide, by decide,
   first_evaluate_free "a" "v1" "v2" false initState (by decide) (by decide) (by decide)⟩

/-- C4: the code's tally-increment guard is a string-prefix test against
the page origin, not a same-origin test: a SCRIPT load failure from the
cross-origin host `a.co.evil.com` (page origin `https://a.co`) passes
`url.startsWith(origin)` and increments the tally. -/
theorem crossOrigin_tally_bug :
    urlOrigin "https://a.co.evil.com/x.js" = "https://a.co.evil.com" ∧
    "https://a.co.evil.com" ≠ "https://a.co" ∧
    jsStartsWith "https://a.co" "https://a.co.evil.com/x.js" = true ∧
    (handleAssetError "https://a.co"
      (some ⟨"SCRIPT", some "https://a.co.evil.com/x.js", none⟩) false
      initState).1.errorCount = 1 := by
  decide

/-- C5: when the initial pathname matches `ignorePaths` (watcher enabled,
not yet initialized), setup only sets the initialized flag: no timer is
armed, history is not hooked, no popstate/error listener is attached,
and no probe is issued. -/
theorem ignorePaths_full_bypass (opts : VersionWatcherOptions) (pathname : String)
    (probe : FetchResult) (s : SystemState)
    (h1 : opts.enabled = true) (h2 : s.isInitialized = false)
    (h3 : ignoreMatch opts.ignorePaths pathname = true) :
    setupVersionWatcher opts pathname probe s =
      ⟨{ s with isInitialized := true }, 0, 0,
        (if opts.silent then [] else [.startup]) ++
          (if opts.silent then [] else [.ignoredInit])⟩ := by
  unfold setupVersionWatcher
  simp [h1, h2, h3]

/-- C5 witness at a concrete ignore-everything configuration. -/
theorem ignorePaths_full_bypass_witness :
    ignoreAllOpts.enabled = true ∧ initState.isInitialized = false ∧
    ignoreMatch ignoreAllOpts.ignorePaths "/login" = true ∧
    setupVersionWatcher ignoreAllOpts "/login" .networkError initState =
      ⟨{ initState with isInitialized := true }, 0, 0,
        (if ignoreAllOpts.silent then [] else [.startup]) ++
          (if ignoreAllOpts.silent then [] else [.ignoredInit])⟩ :=
  ⟨rfl, rfl, rfl,
   ignorePaths_full_bypass ignoreAllOpts "/login" .networkError initState rfl rfl rfl⟩

/-- C6: the prober never raises to its caller: a transport error or a
non-success response yields the empty fingerprint (with a warning unless
silent); a success yields the ETag header if truthy, else the
Last-Modified header if truthy, else the empty string. -/
theorem getETag_soft_fail (silent : Bool) (etag lm : Option String) (e l : String)
    (he : jsFalsyStr e = false) (hl : jsFalsyStr l = false) :
    (getETag .networkError silent).1 = "" ∧
    (getETag (.response false etag lm) silent).1 = "" ∧
    ((getETag .networkError silent).2 = if silent then [] else [.etagFail]) ∧
    ((getETag (.response false etag lm) silent).2 = if silent then [] else [.etagFail]) ∧
    (getETag (.response true (some e) lm) silent).1 = e ∧
    (getETag (.response true none (some l)) silent).1 = l ∧
    (getETag (.response true (some "") (some l)) silent).1 = l ∧
    (getETag (.response true none none) silent).1 = "" ∧
    (getETag (.response true (some "") (some "")) silent).1 = "" ∧
    (getETag (.response true etag lm) silent).2 = [] := by
  have he2 : jsFalsy (some e) = false := he
  have hl2 : jsFalsy (some l) = false := hl
  have hnone : jsFalsy none = true := rfl
  have hemp : jsFalsy (some "") = true := rfl
  refine ⟨rfl, rfl, rfl, rfl, ?_, ?_, ?_, rfl, rfl, rfl⟩
  · simp [getETag, he2]
  · simp [getETag, hnone, hl2]
  · simp [getETag, hemp, hl2]

/-- C6 witness at concrete headers. -/
theorem getETag_soft_fail_witness :
    jsFalsyStr "abc" = false ∧ jsFalsyStr "Tue, 01 Jan 2030" = false ∧
    ((getETag .networkError false).1 = "" ∧
     (getETag (.response false (some "x") (some "y")) false).1 = "" ∧
     ((getETag .networkError false).2 = if false then [] else [.etagFail]) ∧
     ((getETag (.response false (some "x") (some "y")) false).2 =
       if false then [] else [.etagFail]) ∧
     (getETag (.response true (some "abc") (some "y")) false).1 = "abc" ∧
     (getETag (.response true none (some "Tue, 01 Jan 2030")) false).1 =
       "Tue, 01 Jan 2030" ∧
     (getETag (.response true (some "") (some "Tue, 01 Jan 2030")) false).1 =
       "Tue, 01 Jan 2030" ∧
     (getETag (.response true none none) false).1 = "" ∧
     (getETag (.response true (some "") (some "")) false).1 = "" ∧
     (getETag (.response true (some "x") (some "y")) false).2 = []) :=
  ⟨by decide, by decide,
   getETag_soft_fail false (some "x") (some "y") "abc" "Tue, 01 Jan 2030"
     (by decide) (by decide)⟩

/-- C7: an enabled, non-silent setup immediately followed by a second setup
with no teardown in between: the second call is a warned no-op that
probes nothing, notifies nothing, and returns the state exactly as the
first call left it. -/
theorem setup_idempotent (opts : VersionWatcherOptions) (pathname : String)
    (probe : FetchResult) (s : SystemState)
    (h1 : opts.enabled = true) (h2 : opts.silent = false) :
    setupVersionWatcher opts pathname probe
        (setupVersionWatcher opts pathname probe s).state =
      ⟨(setupVersionWatcher opts pathname probe s).state, 0, 0, [.duplicateWarn]⟩ :=
  setup_noop_when_initialized opts pathname probe _ h1 h2
    (setup_sets_initialized opts pathname probe s h1)

/-- C7 witness with the default options from a pristine state. -/
theorem setup_idempotent_witness :
    defaultOpts.enabled = true ∧ defaultOpts.silent = false ∧
    setupVersionWatcher defaultOpts "/" .networkError
        (setupVersionWatcher defaultOpts "/" .networkError initState).state =
      ⟨(setupVersionWatcher defaultOpts "/" .networkError initState).state, 0, 0,
        [.duplicateWarn]⟩ :=
  ⟨rfl, rfl, setup_idempotent defaultOpts "/" .networkError initState rfl rfl⟩

/-- C8: when a truthy baseline differs from the probed fingerprint, the
evaluation notifies but leaves the whole state — the baseline included —
unchanged, so an immediate re-evaluation against the same fingerprint
notifies again. -/
theorem baseline_not_advanced (p : String) (silent : Bool) (s : SystemState)
    (h1 : jsFalsy s.sysVersion = false) (h2 : s.sysVersion ≠ some p) :
    (versionUpdateCore p silent s).1 = s ∧
    (versionUpdateCore p silent s).2.1 = 1 ∧
    (versionUpdateCore p silent (versionUpdateCore p silent s).1).2.1 = 1 := by
  have hstate : (versionUpdateCore p silent s).1 = s := by
    rw [versionUpdateCore_state, h1]
    simp
  refine ⟨hstate, ?_, ?_⟩
  · rw [versionUpdateCore_notifs]
    simp [h1, h2]
  · rw [hstate, versionUpdateCore_notifs]
    simp [h1, h2]

/-- C8 witness: baseline "v1", server now at "v2". -/
theorem baseline_not_advanced_witness :
    jsFalsy baselineV1State.sysVersion = false ∧
    baselineV1State.sysVersion ≠ some "v2" ∧
    ((versionUpdateCore "v2" false baselineV1State).1 = baselineV1State ∧
     (versionUpdateCore "v2" false baselineV1State).2.1 = 1 ∧
     (versionUpdateCore "v2" false
       (versionUpdateCore "v2" false baselineV1State).1).2.1 = 1) :=
  ⟨by decide, by decide,
   baseline_not_advanced "v2" false baselineV1State (by decide) (by decide)⟩

/-- C9: `showUpdateDialog` constructs a fresh debounce closure on every
call, so a burst of two default-flow invocations at t=0ms and t=100ms
(gap below the 500ms window) presents two dialogs, whereas a debounce
window shared across invocations would collapse the burst to one. -/
theorem dialog_debounce_not_shared :
    showUpdateDialogCount [0, 100] = 2 ∧
    debounceFireCount 500 [0, 100] = 1 ∧
    100 < 0 + 500 := by
  decide

/-- C10: teardown leaves both the popstate listener and the error listener
in place; afterwards a non-ignored popstate navigation still probes and —
the baseline being retained, truthy and different from the probe — still
notifies, and a qualifying SCRIPT failure still increments the tally. -/
theorem teardown_keeps_listeners (s : SystemState) (ign : Option (String → Bool))
    (pathname origin url : String) (probe : FetchResult) (silent : Bool)
    (h1 : ignoreMatch ign pathname = false)
    (h2 : jsFalsy s.sysVersion = false)
    (h3 : s.sysVersion ≠ some (getETag probe silent).1)
    (h4 : jsFalsyStr url = false)
    (h5 : jsStartsWith origin url = true) :
    (destroyVersionWatcher s).1.popstateListeners = s.popstateListeners ∧
    (destroyVersionWatcher s).1.errorListeners = s.errorListeners ∧
    (navigationCallback ign pathname probe silent (destroyVersionWatcher s).1).2.1 = 1 ∧
    (handleAssetError origin (some ⟨"SCRIPT", some url, none⟩) silent
        (destroyVersionWatcher s).1).1.errorCount =
      (destroyVersionWatcher s).1.errorCount + 1 := by
  refine ⟨by simp [destroy_state_eq], by simp [destroy_state_eq], ?_, ?_⟩
  · unfold navigationCallback
    rw [if_neg (by simp [h1])]
    unfold versionUpdateHandler
    simp only [versionUpdateCore_notifs, destroy_state_eq]
    simp [h2, h3]
  · unfold handleAssetError
    simp [pickAssetUrl, jsFalsy, h4, h5]

/-- C10 witness: teardown from a fully armed watcher with baseline "v1",
then a popstate navigation probing "v2" and a same-origin SCRIPT
failure. -/
theorem teardown_keeps_listeners_witness :
    ignoreMatch none "/" = false ∧
    jsFalsy armedState.sysVersion = false ∧
    armedState.sysVersion ≠
      some (getETag (.response true (some "v2") none) false).1 ∧
    jsFalsyStr "https://a.co/app.js" = false ∧
    jsStartsWith "https://a.co" "https://a.co/app.js" = true ∧
    ((destroyVersionWatcher armedState).1.popstateListeners =
        armedState.popstateListeners ∧
     (destroyVersionWatcher armedState).1.errorListeners =
        armedState.errorListeners ∧
     (navigationCallback none "/" (.response true (some "v2") none) false
        (destroyVersionWatcher armedState).1).2.1 = 1 ∧
     (handleAssetError "https://a.co"
        (some ⟨"SCRIPT", some "https://a.co/app.js", none⟩) false
        (destroyVersionWatcher armedState).1).1.errorCount =
      (destroyVersionWatcher armedState).1.errorCount + 1) :=
  ⟨rfl, by decide, by decide, by decide, by decide,
   teardown_keeps_listeners armedState none "/" "https://a.co"
     "https://a.co/app.js" (.response true (some "v2") none) false
     rfl (by decide) (by decide) (by decide) (by decide)⟩

end VersionWatcher
